import Mathlib

/-!
# Verification of the clean-beats-splash push-notification dispatch flow

Shallow embedding of the repository's notification subsystem:

* `supabase/functions/send-expo-notification/index.ts` — the serverless
  dispatch function (`handler`, `sendToAllUsers`, `sendToUser`,
  `sendExpoNotification`) and the client-side `ExpoNotificationService`
  (`initialize`, `requestPermissions`, `getExpoPushToken`,
  `saveTokenToDatabase`).
* `src/services/notificationService.ts` — the realtime trigger listener
  that forwards allow-listed in-app notification inserts to the dispatch
  function.

External collaborators (the Supabase database, the Expo push HTTP API, the
device/permission layer) are modelled as an explicit environment record;
every outbound call the code makes is recorded in an explicit trace so that
"performs zero network calls" style properties are statable.

JavaScript truthiness that the source relies on (`if (expoRequest.topic)`,
`x || 'default'`, `result.message || 'Unknown Expo error'`) is embedded
faithfully: an absent field is `none`, and an empty string is falsy.
-/

namespace CleanBeats

/-- JS `orElse` on an optional string: `o || d`.  `undefined`, `null` and
the empty string are falsy and give the default. -/
def jsOr (o : Option String) (d : String) : String :=
  match o with
  | some s => if s == "" then d else s
  | none => d

/-- JS truthiness of an optional string field: present and non-empty. -/
def strTruthy : Option String → Bool
  | some s => !(s == "")
  | none => false

/-- The structured `data` payload of a request
(`data?: Record<string, any>` in `ExpoNotificationRequest`).  Only the
`type` key is ever read by the dispatch code
(`expoRequest.data?.type || 'unknown'`); the remaining keys are carried
opaquely as an association list. -/
structure Payload where
  type : Option String
  rest : List (String × String)
deriving Repr, DecidableEq

/-- The empty JS object `{}` used by `expoRequest.data || {}`. -/
def Payload.empty : Payload := ⟨none, []⟩

/-- Field `priority?: 'default' | 'normal' | 'high'` of the request. -/
inductive Priority where
  | pdefault
  | pnormal
  | phigh
deriving Repr, DecidableEq

/-- The provider-side string of a priority value. -/
def Priority.str : Priority → String
  | .pdefault => "default"
  | .pnormal => "normal"
  | .phigh => "high"

/-- Field `sound?: 'default' | null` of the request: the field, when present,
is either the string `'default'` or JS `null`. -/
inductive SoundField where
  | sdefault
  | snull
deriving Repr, DecidableEq

/-- JS `expoRequest.sound || 'default'`: the string `'default'` is truthy and
kept; JS `null` is falsy and replaced by `'default'`; an absent field is
also replaced by `'default'`. -/
def jsSoundOr : Option SoundField → String
  | some .sdefault => "default"
  | some .snull => "default"
  | none => "default"

/-- JS `expoRequest.priority || 'normal'`: every literal of the declared union
is a non-empty string, hence truthy and kept; an absent field defaults. -/
def jsPriorityOr : Option Priority → String
  | some p => p.str
  | none => "normal"

/-- The JSON body accepted by the serverless endpoint
(`interface ExpoNotificationRequest`, index.ts lines 9–19). -/
structure ExpoNotificationRequest where
  userId : Option String := none
  userIds : Option (List String) := none
  topic : Option String := none
  title : String
  body : String
  data : Option Payload := none
  priority : Option Priority := none
  sound : Option SoundField := none
  badge : Option Int := none
deriving Repr, DecidableEq

/-- The envelope POSTed to the Expo push API
(`interface ExpoMessage`, index.ts lines 21–30).  `badge` is attached only
when the request's badge is not `undefined` (index.ts lines 187–189). -/
structure ExpoMessage where
  «to» : List String
  title : String
  body : String
  data : Payload
  sound : String
  priority : String
  channelId : String
  badge : Option Int
deriving Repr, DecidableEq

/-- A per-token delivery ticket in the Expo response
(`result.data` array elements with a `status` of `'ok'` or `'error'`). -/
inductive Ticket where
  | ok (id : String)
  | err (message : String)
deriving Repr, DecidableEq

/-- Test `ticket.status === 'ok'`. -/
def Ticket.isOk : Ticket → Bool
  | .ok _ => true
  | .err _ => false

/-- Test `ticket.status === 'error'`. -/
def Ticket.isErr : Ticket → Bool
  | .ok _ => false
  | .err _ => true

/-- Field `ticket.id` (only ok tickets carry an id). -/
def Ticket.idOf : Ticket → Option String
  | .ok id => some id
  | .err _ => none

/-- The provider's HTTP response as the dispatch code observes it:
`response.ok`, the parsed body's optional `message` string and, when the
body's `data` field is an array of tickets, that array. -/
structure ProviderResponse where
  ok : Bool
  message : Option String
  data : Option (List Ticket)
deriving Repr, DecidableEq

/-- JS `result.data?.[0]?.id || 'unknown'` (index.ts line 229). -/
def firstTicketId : Option (List Ticket) → String
  | some (t :: _) => jsOr t.idOf "unknown"
  | some [] => "unknown"
  | none => "unknown"

/-- A row of the `fcm_tokens` table (the Token Store). -/
structure TokenRow where
  user_id : String
  token : String
  platform : String
  is_active : Bool
deriving Repr, DecidableEq

/-- The result shape every send routine returns
(`{ success, error?, messageId?, tickets? }`). -/
structure SendResult where
  success : Bool
  error : Option String := none
  messageId : Option String := none
  tickets : Option (List Ticket) := none
deriving Repr, DecidableEq

/-- A row of the `notification_deliveries` table (the Delivery Log).
The wall-clock timestamp of the metadata blob is outside the model. -/
structure DeliveryRecord where
  user_id : String
  notification_type : String
  platform : String
  status : String
  error_message : Option String
  expo_message_id : Option String
deriving Repr, DecidableEq

/-- An outbound network call of the dispatch function: a `select` on the
Token Store (`some uid` when filtered by `eq('user_id', uid)`, `none` for
the broadcast query) or a POST of an envelope to the Expo push API. -/
inductive NetCall where
  | tokenQuery (userFilter : Option String)
  | providerPost (msg : ExpoMessage)
deriving Repr, DecidableEq

/-- A write to the Delivery Log.  The operation language has update and
delete so that append-only-ness is a statement, not a tautology of the
trace type; the dispatch source only ever issues `insert`. -/
inductive DbWrite where
  | insertDelivery (rec : DeliveryRecord)
  | updateDelivery (rec : DeliveryRecord)
  | deleteDelivery (user_id : String)
deriving Repr, DecidableEq

/-- Is a Delivery Log operation an insert? -/
def DbWrite.isInsert : DbWrite → Bool
  | .insertDelivery _ => true
  | _ => false

/-- The environment of one dispatch invocation: the Token Store contents,
which Token Store queries error, and the provider's response to each
possible envelope. -/
structure Env where
  fcmTokens : List TokenRow
  userQueryError : String → Bool
  allQueryError : Bool
  provider : ExpoMessage → ProviderResponse

/-- SQL `LIKE 'expo-%'` on the platform tag: the tag begins with the
push-SDK family marker `expo-`.  Stated on the character lists so that
concrete instances evaluate. -/
def likeExpoPlatform (p : String) : Bool :=
  "expo-".data.isPrefixOf p.data

/-- The per-user Token Store query (index.ts lines 130–135):
`from('fcm_tokens').select('*').eq('user_id', userId)
 .like('platform', 'expo-%').eq('is_active', true)`;
`none` models the query returning an error. -/
def queryUserTokens (env : Env) (uid : String) : Option (List TokenRow) :=
  if env.userQueryError uid then none
  else some (env.fcmTokens.filter fun r =>
    r.user_id == uid && likeExpoPlatform r.platform && r.is_active)

/-- The broadcast Token Store query (index.ts lines 102–106):
`from('fcm_tokens').select('*').like('platform', 'expo-%')
 .eq('is_active', true)`. -/
def queryAllTokens (env : Env) : Option (List TokenRow) :=
  if env.allQueryError then none
  else some (env.fcmTokens.filter fun r =>
    likeExpoPlatform r.platform && r.is_active)

/-- The envelope construction of `sendExpoNotification`
(index.ts lines 177–189). -/
def buildMessage (tokens : List String) (req : ExpoNotificationRequest) :
    ExpoMessage :=
  { «to» := tokens
    title := req.title
    body := req.body
    data := req.data.getD Payload.empty
    sound := jsSoundOr req.sound
    priority := jsPriorityOr req.priority
    channelId := "default"
    badge := req.badge }

/-- Function `sendExpoNotification` (index.ts lines 175–237): build the envelope,
POST it, and interpret the response: a non-ok HTTP status is a failure; an
ok status with a ticket array containing at least one error ticket succeeds
iff some ticket is ok, reporting the failing count; otherwise success with
the first ticket id as message id. -/
def sendExpoNotification (env : Env) (tokens : List String)
    (req : ExpoNotificationRequest) : SendResult × List NetCall :=
  let msg := buildMessage tokens req
  let resp := env.provider msg
  let post := [NetCall.providerPost msg]
  if !resp.ok then
    ({ success := false, error := some (jsOr resp.message "Unknown Expo error") }, post)
  else
    match resp.data with
    | some tickets =>
      let errTickets := tickets.filter Ticket.isErr
      if errTickets.length > 0 then
        ({ success := tickets.any Ticket.isOk
           error := some (toString errTickets.length ++ " notifications failed")
           tickets := some tickets }, post)
      else
        ({ success := true
           messageId := some (firstTicketId (some tickets))
           tickets := some tickets }, post)
    | none =>
      ({ success := true
         messageId := some (firstTicketId none)
         tickets := none }, post)

/-- The outcome of one per-recipient step: its result and the traces of
network calls and Delivery Log writes it produced. -/
structure StepOut where
  result : SendResult
  calls : List NetCall
  writes : List DbWrite
deriving Repr, DecidableEq

/-- The Delivery Log row written for one token record of a per-user send
(index.ts lines 151–165). -/
def deliveryRowFor (uid : String) (req : ExpoNotificationRequest)
    (result : SendResult) (tr : TokenRow) : DeliveryRecord :=
  { user_id := uid
    notification_type := jsOr (req.data.bind Payload.type) "unknown"
    platform := tr.platform
    status := if result.success then "sent" else "failed"
    error_message := if result.success then none else result.error
    expo_message_id := result.messageId }

/-- Function `sendToUser` (index.ts lines 127–173): query the user's active expo
tokens, fail on query error or empty set, otherwise send one batch and
write one Delivery Log row per token record queried. -/
def sendToUser (env : Env) (uid : String) (req : ExpoNotificationRequest) :
    StepOut :=
  match queryUserTokens env uid with
  | none =>
    { result := { success := false, error := some "Failed to fetch user tokens" }
      calls := [.tokenQuery (some uid)]
      writes := [] }
  | some tokens =>
    if tokens.isEmpty then
      { result := { success := false, error := some "No active tokens for user" }
        calls := [.tokenQuery (some uid)]
        writes := [] }
    else
      let tokenList := tokens.map TokenRow.token
      let (result, posts) := sendExpoNotification env tokenList req
      { result := result
        calls := .tokenQuery (some uid) :: posts
        writes := tokens.map fun tr =>
          .insertDelivery (deliveryRowFor uid req result tr) }

/-- Function `sendToAllUsers` (index.ts lines 99–125): query all active expo tokens
(the topic's literal value is never consulted), fail on query error or
empty set, otherwise send one batch; no Delivery Log write. -/
def sendToAllUsers (env : Env) (req : ExpoNotificationRequest) : StepOut :=
  match queryAllTokens env with
  | none =>
    { result := { success := false, error := some "Failed to fetch tokens" }
      calls := [.tokenQuery none]
      writes := [] }
  | some tokens =>
    if tokens.isEmpty then
      { result := { success := false, error := some "No active tokens found" }
        calls := [.tokenQuery none]
        writes := [] }
    else
      let (result, posts) := sendExpoNotification env (tokens.map TokenRow.token) req
      { result := result
        calls := .tokenQuery none :: posts
        writes := [] }

/-- The accumulated outcome of the `for (const userId of userIds)` loop. -/
structure LoopOut where
  results : List SendResult
  calls : List NetCall
  writes : List DbWrite
deriving Repr, DecidableEq

/-- The sequential loop of the multi-user branch (index.ts lines 58–61):
one `sendToUser` per list element, in list order, traces concatenated in
execution order. -/
def dispatchLoop (env : Env) (req : ExpoNotificationRequest) :
    List String → LoopOut
  | [] => ⟨[], [], []⟩
  | u :: us =>
    let s := sendToUser env u req
    let rest := dispatchLoop env req us
    ⟨s.result :: rest.results, s.calls ++ rest.calls, s.writes ++ rest.writes⟩

/-- The JSON body of the HTTP response: the 200 shape
`{ success: true, message, results }` or the 500 shape
`{ success: false, error }`. -/
inductive RespBody where
  | success (message : String) (results : List SendResult)
  | failure (error : String)
deriving Repr, DecidableEq

/-- The full observable outcome of one handler invocation. -/
structure HandlerOut where
  status : Nat
  body : RespBody
  calls : List NetCall
  writes : List DbWrite
deriving Repr, DecidableEq

/-- The aggregation and 200 response of the handler
(index.ts lines 66–81). -/
def mk200 (results : List SendResult) (calls : List NetCall)
    (writes : List DbWrite) : HandlerOut :=
  let successCount := results.countP SendResult.success
  let failureCount := results.countP fun r => !r.success
  { status := 200
    body := .success
      ("Sent " ++ toString successCount ++ " notifications, " ++
        toString failureCount ++ " failed") results
    calls := calls
    writes := writes }

/-- The message of the validation error thrown at index.ts line 63. -/
def noRecipientMsg : String :=
  "No valid recipient specified (userId, userIds, or topic)"

/-- Function `handler` (index.ts lines 37–97) on a parsed request body; `none`
models a body `req.json()` fails to parse (the catch block turns the parse
exception into the 500 shape; the exception's exact text is the JSON
parser's and is represented by a fixed string). -/
def handler (env : Env) (req? : Option ExpoNotificationRequest) :
    HandlerOut :=
  match req? with
  | none => { status := 500, body := .failure "Invalid JSON body", calls := [], writes := [] }
  | some req =>
    if strTruthy req.topic then
      let s := sendToAllUsers env req
      mk200 [s.result] s.calls s.writes
    else if strTruthy req.userId then
      let s := sendToUser env (req.userId.getD "") req
      mk200 [s.result] s.calls s.writes
    else
      match req.userIds with
      | some us =>
        if 0 < us.length then
          let l := dispatchLoop env req us
          mk200 l.results l.calls l.writes
        else
          { status := 500, body := .failure noRecipientMsg, calls := [], writes := [] }
      | none =>
        { status := 500, body := .failure noRecipientMsg, calls := [], writes := [] }

/-- The condition under which the handler's recipient dispatch chain finds
a recipient (the chain of index.ts lines 48–64): truthy `topic`, else
truthy `userId`, else a `userIds` array of positive length. -/
def validRecipient (req : ExpoNotificationRequest) : Bool :=
  strTruthy req.topic || strTruthy req.userId ||
    (match req.userIds with
     | some us => 0 < us.length
     | none => false)

/-- Is a network call a provider POST? -/
def NetCall.isPost : NetCall → Bool
  | .providerPost _ => true
  | .tokenQuery _ => false

/-! ## The realtime trigger listener (`src/services/notificationService.ts`) -/

/-- A row inserted into the in-app `notifications` table, as delivered to
the realtime subscription (`payload.new`). -/
structure InAppNotification where
  id : String
  type : String
  title : String
  message : String
  data : List (String × String)
deriving Repr, DecidableEq

/-- The allow-list `pushNotificationTypes`
(notificationService.ts lines 70–79). -/
def pushNotificationTypes : List String :=
  ["like", "comment", "comment_reply", "follow",
   "event_like", "event_comment", "cleaning_reminder", "event_reminder"]

/-- The JSON body the listener passes to
`supabase.functions.invoke('send-expo-notification', ...)`
(notificationService.ts lines 83–95).  Note its recipient key is
`user_id` and its type key is `notification_type`. -/
structure ListenerInvokeBody where
  user_id : String
  title : String
  body : String
  notification_type : String
  data : Payload
deriving Repr, DecidableEq

/-- JS spread `{ notification_id: ..., type: ..., ...notification.data }`:
a `type` key in the spread `notification.data` overrides the literal one. -/
def listenerPayload (n : InAppNotification) : Payload :=
  { type := match n.data.lookup "type" with
      | some t => some t
      | none => some n.type
    rest := ("notification_id", n.id) :: n.data }

/-- The invocation body the listener builds for one event, for the
authenticated user `authUser` (the subscription is filtered to that user's
rows). -/
def listenerBody (authUser : String) (n : InAppNotification) :
    ListenerInvokeBody :=
  { user_id := authUser
    title := n.title
    body := n.message
    notification_type := n.type
    data := listenerPayload n }

/-- One realtime insert event as the listener handles it: events whose
`type` is in the allow-list produce an invocation of the dispatch
function, all others produce nothing
(notificationService.ts lines 81–100). -/
def listenerReaction (authUser : String) (n : InAppNotification) :
    Option ListenerInvokeBody :=
  if pushNotificationTypes.contains n.type then
    some (listenerBody authUser n)
  else
    none

/-- How the dispatch function parses the listener's JSON body: the handler
reads the keys `userId`, `userIds`, `topic`, `title`, `body`, `data`,
`priority`, `sound`, `badge`; the listener's body carries `user_id` and
`notification_type` instead of `userId` and has no `topic` or `userIds`
key, so all three recipient fields parse as absent. -/
def toDispatchRequest (b : ListenerInvokeBody) : ExpoNotificationRequest :=
  { userId := none
    userIds := none
    topic := none
    title := b.title
    body := b.body
    data := some b.data }

/-! ## The device registration service (`ExpoNotificationService`) -/

/-- The fields of the device/permission/auth environment one client
session observes.  A stable session presents the same environment to every
`initialize()` call. -/
structure DeviceEnv where
  isDevice : Bool
  os : String
  permStatus : String
  requestedStatus : String
  projectId : Option String
  pushToken : Option String
  currentUser : Option String
  upsertError : Bool
deriving Repr, DecidableEq

/-- The service's private mutable state
(`private isInitialized = false; private expoPushToken: string | null`). -/
structure SvcState where
  isInitialized : Bool
  expoPushToken : Option String
deriving Repr, DecidableEq

/-- An external call the client service makes. -/
inductive SvcCall where
  | getPermissions
  | requestPermissions
  | getPushToken
  | upsertRow (user token platform : String)
  | installListeners
deriving Repr, DecidableEq

/-- Method `requestPermissions()` (index.ts lines 543–564): read the existing
permission status, re-prompt when it is not `granted`, and report whether
the final status is `granted`. -/
def requestPermissionsFn (env : DeviceEnv) : Bool × List SvcCall :=
  if env.permStatus == "granted" then
    (true, [.getPermissions])
  else
    (env.requestedStatus == "granted", [.getPermissions, .requestPermissions])

/-- Method `getExpoPushToken()` (index.ts lines 566–585): fail without a project
id, otherwise ask the push SDK for a token (`none` models the SDK call
failing). -/
def getExpoPushTokenFn (env : DeviceEnv) : Option String × List SvcCall :=
  match env.projectId with
  | none => (none, [])
  | some _ => (env.pushToken, [.getPushToken])

/-- The upsert key of the `fcm_tokens` table:
`onConflict: 'user_id,platform,token'`. -/
def TokenRow.key (r : TokenRow) : String × String × String :=
  (r.user_id, r.platform, r.token)

/-- Do two rows collide on the upsert key? -/
def sameKey (a b : TokenRow) : Bool := decide (a.key = b.key)

/-- Upsert semantics on the Token Store: a row whose key already exists
replaces that row; otherwise the row is appended. -/
def upsertToken (store : List TokenRow) (row : TokenRow) : List TokenRow :=
  if store.any (sameKey row) then
    store.map fun r => if sameKey row r then row else r
  else
    store ++ [row]

/-- No two rows of a store collide on the upsert key. -/
def nodupKeys : List TokenRow → Bool
  | [] => true
  | r :: rs => !(rs.any (sameKey r)) && nodupKeys rs

/-- Method `saveTokenToDatabase(token, userId)` (index.ts lines 587–621): upsert
the row `(userId, token, 'expo-' + Platform.OS, active)` keyed on
(user, platform, token) and report the boolean outcome.  An erroring
upsert is modelled as leaving the store unchanged. -/
def saveTokenToDatabase (env : DeviceEnv) (store : List TokenRow)
    (token uid : String) : Bool × List TokenRow × List SvcCall :=
  let platform := "expo-" ++ env.os
  let row : TokenRow :=
    { user_id := uid, token := token, platform := platform, is_active := true }
  if env.upsertError then
    (false, store, [.upsertRow uid token platform])
  else
    (true, upsertToken store row, [.upsertRow uid token platform])

/-- The outcome of one `initialize()` call: the returned boolean, the
service state and Token Store afterward, and the external calls made. -/
structure InitOut where
  ok : Bool
  state : SvcState
  store : List TokenRow
  trace : List SvcCall
deriving Repr, DecidableEq

/-- Method `initialize()` (index.ts lines 497–541): return `true` immediately
when already initialized; otherwise fail fast on a non-physical device,
then request permissions, then acquire a push token; on success set the
token and the initialized flag, save the token for the authenticated user
(its outcome does not affect the return value) and install the two
listeners. -/
def initializeFn (env : DeviceEnv) (st : SvcState) (store : List TokenRow) :
    InitOut :=
  if st.isInitialized then
    ⟨true, st, store, []⟩
  else if !env.isDevice then
    ⟨false, st, store, []⟩
  else
    let (perm, t1) := requestPermissionsFn env
    if !perm then
      ⟨false, st, store, t1⟩
    else
      match getExpoPushTokenFn env with
      | (none, t2) => ⟨false, st, store, t1 ++ t2⟩
      | (some tok, t2) =>
        let st' : SvcState := { isInitialized := true, expoPushToken := some tok }
        match env.currentUser with
        | some u =>
          let (_, store', t3) := saveTokenToDatabase env store tok u
          ⟨true, st', store', t1 ++ t2 ++ t3 ++ [.installListeners]⟩
        | none =>
          ⟨true, st', store, t1 ++ t2 ++ [.installListeners]⟩

/-! ## The claim-side predicates the theorems compare against -/

/-- The active-expo filter the spec describes for the broadcast recipient
set: rows with the active flag set and a platform tag of the push-SDK
family. -/
def activeExpoRows (rows : List TokenRow) : List TokenRow :=
  rows.filter fun r => likeExpoPlatform r.platform && r.is_active

/-- The per-user success criterion of the spec: the user's token query
succeeded with a non-empty set and the provider response for that batch
contained at least one ticket with status ok. -/
def userProviderHasOkTicket (env : Env) (req : ExpoNotificationRequest)
    (u : String) : Bool :=
  match queryUserTokens env u with
  | none => false
  | some tokens =>
    if tokens.isEmpty then false
    else
      match (env.provider (buildMessage (tokens.map TokenRow.token) req)).data with
      | some ts => ts.any Ticket.isOk
      | none => false

/-- The provider interface of the spec (§6): a success response carries a
ticket array with one per-token entry (hence non-empty, since a batch is
only sent for a non-empty token list), and an error response carries an
error object, not a ticket array. -/
def wellFormedProvider (env : Env) : Prop :=
  ∀ msg, ((env.provider msg).ok = true →
            ∃ ts, (env.provider msg).data = some ts ∧ ts ≠ []) ∧
         ((env.provider msg).ok = false → (env.provider msg).data = none)

/-! ## Concrete sample worlds used by witnesses and counterexamples -/

/-- A provider that accepts every batch with no ticket detail. -/
def providerOkEmpty : ExpoMessage → ProviderResponse :=
  fun _ => { ok := true, message := none, data := none }

/-- A provider that answers every batch with one ok and one error ticket. -/
def providerMixed : ExpoMessage → ProviderResponse :=
  fun _ => { ok := true, message := none, data := some [.ok "a", .err "boom"] }

/-- An environment with an empty Token Store and no query errors. -/
def envEmpty : Env :=
  { fcmTokens := [], userQueryError := fun _ => false, allQueryError := false
    provider := providerOkEmpty }

/-- A minimal request with no recipient field. -/
def reqBasic : ExpoNotificationRequest := { title := "T", body := "B" }

/-- A request carrying two recipient shapes at once. -/
def reqMulti : ExpoNotificationRequest :=
  { topic := some "all_users", userId := some "u1", title := "T", body := "B" }

/-- A request addressed to the user list `["u1", "u2"]`. -/
def reqTwoUsers : ExpoNotificationRequest :=
  { userIds := some ["u1", "u2"], title := "T", body := "B" }

/-- An active expo token row owned by `u2`. -/
def rowU2 : TokenRow :=
  { user_id := "u2", token := "tok2", platform := "expo-ios", is_active := true }

/-- An environment where `u1`'s token query errors, `u2` owns one active
token, and the provider answers with a mixed ticket list. -/
def envC4 : Env :=
  { fcmTokens := [rowU2], userQueryError := fun u => u == "u1"
    allQueryError := false, provider := providerMixed }

/-- A stable device session whose permission prompt is denied. -/
def envDenied : DeviceEnv :=
  { isDevice := true, os := "ios", permStatus := "undetermined"
    requestedStatus := "denied", projectId := some "p"
    pushToken := some "tok", currentUser := some "u1", upsertError := false }

/-- A stable device session in which initialization fully succeeds. -/
def envGranted : DeviceEnv :=
  { isDevice := true, os := "ios", permStatus := "granted"
    requestedStatus := "granted", projectId := some "p"
    pushToken := some "tok", currentUser := some "u1", upsertError := false }

/-- The state of one `initialize()` call on a fresh service instance. -/
def initOnce (env : DeviceEnv) (store : List TokenRow) : InitOut :=
  initializeFn env { isInitialized := false, expoPushToken := none } store

/-- The state of a second `initialize()` call in the same session. -/
def initTwice (env : DeviceEnv) (store : List TokenRow) : InitOut :=
  initializeFn env (initOnce env store).state (initOnce env store).store

/-! ## Theorems -/

/-- The provider POST trace of one batch send is exactly one POST of the
built envelope, whatever the response. -/
theorem sendExpoNotification_calls (env : Env) (tl : List String)
    (req : ExpoNotificationRequest) :
    (sendExpoNotification env tl req).2 =
      [NetCall.providerPost (buildMessage tl req)] := by
  unfold sendExpoNotification
  dsimp only
  split
  · rfl
  · split
    · split <;> rfl
    · rfl

/-- Lemma about `sendToAllUsers` on a non-erroring query: the empty active set yields
the no-active-tokens failure without a POST; a non-empty active set yields
one POST addressed to exactly the active expo rows' tokens. -/
theorem sendToAllUsers_spec (env : Env) (req : ExpoNotificationRequest)
    (hq : env.allQueryError = false) :
    (activeExpoRows env.fcmTokens = [] →
      sendToAllUsers env req =
        { result := { success := false, error := some "No active tokens found" }
          calls := [.tokenQuery none], writes := [] }) ∧
    (activeExpoRows env.fcmTokens ≠ [] →
      sendToAllUsers env req =
        { result := (sendExpoNotification env
            ((activeExpoRows env.fcmTokens).map TokenRow.token) req).1
          calls := [.tokenQuery none,
            .providerPost (buildMessage
              ((activeExpoRows env.fcmTokens).map TokenRow.token) req)]
          writes := [] }) := by
  constructor
  · intro hempty
    simp only [sendToAllUsers, queryAllTokens, hq, Bool.false_eq_true, if_false]
    have : env.fcmTokens.filter
        (fun r => likeExpoPlatform r.platform && r.is_active) = [] := hempty
    simp [this]
  · intro hne
    simp only [sendToAllUsers, queryAllTokens, hq, Bool.false_eq_true, if_false]
    have h2 : (env.fcmTokens.filter
        (fun r => likeExpoPlatform r.platform && r.is_active)).isEmpty = false := by
      rw [List.isEmpty_eq_false_iff_exists_mem]
      rcases List.exists_mem_of_ne_nil _ hne with ⟨x, hx⟩
      exact ⟨x, hx⟩
    simp only [h2, Bool.false_eq_true, if_false]
    rw [sendExpoNotification_calls]
    rfl

/-- C1: for every request in which none of `userId`, `userIds` and `topic`
is present, the dispatch function performs zero network calls (no Token
Store query and no provider POST), writes nothing, and returns the
validation failure. -/
theorem no_recipient_validation_failure (env : Env)
    (req : ExpoNotificationRequest) (ht : req.topic = none)
    (hu : req.userId = none) (hus : req.userIds = none) :
    (handler env (some req)).calls = [] ∧
    (handler env (some req)).writes = [] ∧
    (handler env (some req)).status = 500 ∧
    (handler env (some req)).body = RespBody.failure noRecipientMsg := by
  simp [handler, strTruthy, ht, hu, hus]

/-- Witness for C1: the empty-recipient request on a concrete world. -/
theorem no_recipient_validation_failure_witness :
    (handler envEmpty (some reqBasic)).calls = [] ∧
    (handler envEmpty (some reqBasic)).writes = [] ∧
    (handler envEmpty (some reqBasic)).status = 500 ∧
    (handler envEmpty (some reqBasic)).body = RespBody.failure noRecipientMsg :=
  no_recipient_validation_failure envEmpty reqBasic rfl rfl rfl

/-- C10: a request that explicitly sets `sound` to JS `null` still yields
an envelope whose `sound` is `'default'` (the null is not preserved), and
the envelope's `priority` defaults to `'normal'` and its `channelId` to
`'default'` when unspecified. -/
theorem envelope_sound_priority_channel_defaults (tokens : List String)
    (req : ExpoNotificationRequest) :
    (buildMessage tokens { req with sound := some SoundField.snull }).sound
      = "default" ∧
    (buildMessage tokens { req with priority := none }).priority = "normal" ∧
    (buildMessage tokens req).channelId = "default" :=
  ⟨rfl, rfl, rfl⟩

/-- C3: a non-success HTTP status from the provider makes the batch a
failure; a success status whose body carries a ticket list with at least
one error ticket makes the batch a success exactly when some ticket is ok,
reporting the failing count in the result's error field. -/
theorem provider_response_interpretation (env : Env) (tokens : List String)
    (req : ExpoNotificationRequest) :
    ((env.provider (buildMessage tokens req)).ok = false →
      (sendExpoNotification env tokens req).1.success = false) ∧
    ((env.provider (buildMessage tokens req)).ok = true →
      ∀ ts, (env.provider (buildMessage tokens req)).data = some ts →
        0 < (ts.filter Ticket.isErr).length →
        (sendExpoNotification env tokens req).1.success = ts.any Ticket.isOk ∧
        (sendExpoNotification env tokens req).1.error =
          some (toString (ts.filter Ticket.isErr).length ++
            " notifications failed")) := by
  constructor
  · intro h
    simp [sendExpoNotification, h]
  · intro h ts hts hlen
    simp [sendExpoNotification, h, hts, hlen]

/-- Witness for C3: a mixed ticket list on a concrete world gives success
with a failing count of one. -/
theorem provider_response_interpretation_witness :
    (sendExpoNotification envC4 ["tok2"] reqBasic).1.success =
      [Ticket.ok "a", Ticket.err "boom"].any Ticket.isOk ∧
    (sendExpoNotification envC4 ["tok2"] reqBasic).1.error =
      some (toString ([Ticket.ok "a", Ticket.err "boom"].filter
        Ticket.isErr).length ++ " notifications failed") :=
  (provider_response_interpretation envC4 ["tok2"] reqBasic).2 rfl
    [Ticket.ok "a", Ticket.err "boom"] rfl (by decide)

/-- C9 counterexample: a request carrying both a `topic` and a `userId`
is processed as a valid request (HTTP 200, no validation failure), so
"a request with more than one shape present is not processed as a valid
request" is false of the code. -/
theorem multi_shape_request_processed :
    reqMulti.topic = some "all_users" ∧
    reqMulti.userId = some "u1" ∧
    (handler envEmpty (some reqMulti)).status = 200 ∧
    (handler envEmpty (some reqMulti)).body ≠ RespBody.failure noRecipientMsg := by
  refine ⟨rfl, rfl, rfl, ?_⟩
  decide

/-- C9 (amended): absence of all three recipient shapes is a validation
error; when more than one shape is present the request is still processed,
using the highest-priority shape (`topic` over `userId` over `userIds`)
and ignoring the lower-priority ones. -/
theorem recipient_shape_priority (env : Env) (req : ExpoNotificationRequest) :
    (validRecipient req = false →
      handler env (some req) =
        { status := 500, body := .failure noRecipientMsg, calls := [], writes := [] }) ∧
    (strTruthy req.topic = true → ∀ x y,
      handler env (some { req with userId := x, userIds := y }) =
        handler env (some req)) ∧
    (strTruthy req.topic = false → strTruthy req.userId = true → ∀ y,
      handler env (some { req with userIds := y }) = handler env (some req)) := by
  refine ⟨?_, ?_, ?_⟩
  · intro h
    simp only [validRecipient, Bool.or_eq_false_iff] at h
    obtain ⟨⟨h1, h2⟩, h3⟩ := h
    simp only [handler, h1, h2, Bool.false_eq_true, if_false]
    match hm : req.userIds with
    | none => rfl
    | some us =>
      rw [hm] at h3
      simp only [decide_eq_false_iff_not, Nat.not_lt, Nat.le_zero] at h3
      simp [h3]
  · intro h x y
    simp only [handler]
    rw [show ({ req with userId := x, userIds := y } :
          ExpoNotificationRequest).topic = req.topic from rfl, h]
    rfl
  · intro h1 h2 y
    simp only [handler]
    rw [show ({ req with userIds := y } :
          ExpoNotificationRequest).topic = req.topic from rfl, h1,
        show ({ req with userIds := y } :
          ExpoNotificationRequest).userId = req.userId from rfl, h2]
    rfl

/-- C8: every handler invocation produces exactly one of the two response
shapes — HTTP 200 with a `{ success, message, results[] }` body precisely
when the parsed request passes recipient validation (the partial-or-full
success path), and HTTP 500 with a `{ success: false, error }` body on
validation or parse failure; the handler is total, so no fault escapes. -/
theorem endpoint_response_shape (env : Env)
    (req? : Option ExpoNotificationRequest) :
    ((handler env req?).status = 200 ∨ (handler env req?).status = 500) ∧
    ((handler env req?).status = 200 ↔
      ∃ req, req? = some req ∧ validRecipient req = true) ∧
    ((handler env req?).status = 200 →
      ∃ m rs, (handler env req?).body = RespBody.success m rs) ∧
    ((handler env req?).status = 500 →
      ∃ e, (handler env req?).body = RespBody.failure e) := by
  cases req? with
  | none => simp [handler]
  | some req =>
    by_cases h1 : strTruthy req.topic = true
    · simp [handler, h1, mk200, validRecipient]
    · rw [Bool.not_eq_true] at h1
      by_cases h2 : strTruthy req.userId = true
      · simp [handler, h1, h2, mk200, validRecipient]
      · rw [Bool.not_eq_true] at h2
        cases hm : req.userIds with
        | none => simp [handler, h1, h2, hm, validRecipient]
        | some us =>
          by_cases h3 : 0 < us.length
          · simp [handler, h1, h2, hm, h3, mk200, validRecipient]
          · simp [handler, h1, h2, hm, h3, validRecipient]

/-- Witness for C8: the response dichotomy on a concrete invocation. -/
theorem endpoint_response_shape_witness :
    ((handler envEmpty (some reqMulti)).status = 200 ∨
      (handler envEmpty (some reqMulti)).status = 500) ∧
    ((handler envEmpty (some reqMulti)).status = 200 ↔
      ∃ req, (some reqMulti : Option ExpoNotificationRequest) = some req ∧
        validRecipient req = true) :=
  ⟨(endpoint_response_shape envEmpty (some reqMulti)).1,
   (endpoint_response_shape envEmpty (some reqMulti)).2.1⟩

/-- C2: with `topic` present, the resolved recipient set is exactly the
Token Store rows with the active flag and an `expo-` platform tag, the
topic's literal value being irrelevant; and when that set is empty the
dispatch result is the "no active tokens" failure with zero provider
calls. -/
theorem topic_broadcast_recipient_set (env : Env)
    (req : ExpoNotificationRequest) (t : String) (ht : ¬t = "") :
    (∀ s, ¬s = "" →
      handler env (some { req with topic := some s }) =
        handler env (some { req with topic := some t })) ∧
    (env.allQueryError = false →
      (activeExpoRows env.fcmTokens = [] →
        (handler env (some { req with topic := some t })).body =
          RespBody.success "Sent 0 notifications, 1 failed"
            [{ success := false, error := some "No active tokens found" }] ∧
        ∀ c ∈ (handler env (some { req with topic := some t })).calls,
          c.isPost = false) ∧
      (activeExpoRows env.fcmTokens ≠ [] →
        NetCall.providerPost
            (buildMessage ((activeExpoRows env.fcmTokens).map TokenRow.token)
              { req with topic := some t })
          ∈ (handler env (some { req with topic := some t })).calls)) := by
  have hstr : ∀ s : String, ¬s = "" → strTruthy (some s) = true := by
    intro s hs
    simp [strTruthy, hs]
  constructor
  · intro s hs
    simp only [handler, hstr s hs, hstr t ht, if_true]
    rfl
  · intro hq
    constructor
    · intro hempty
      have h := (sendToAllUsers_spec env { req with topic := some t } hq).1 hempty
      simp only [handler, hstr t ht, if_true, h, mk200]
      constructor
      · rfl
      · intro c hc
        simp only [List.mem_singleton] at hc
        subst hc
        rfl
    · intro hne
      have h := (sendToAllUsers_spec env { req with topic := some t } hq).2 hne
      simp only [handler, hstr t ht, if_true, h, mk200]
      simp

/-- Witness for C2 on a concrete world with an empty Token Store: the
broadcast result is the "no active tokens" failure and no POST occurs. -/
theorem topic_broadcast_recipient_set_witness :
    (handler envEmpty
        (some { reqBasic with topic := some "all_users" })).body =
      RespBody.success "Sent 0 notifications, 1 failed"
        [{ success := false, error := some "No active tokens found" }] ∧
    ∀ c ∈ (handler envEmpty
        (some { reqBasic with topic := some "all_users" })).calls,
      c.isPost = false :=
  ((topic_broadcast_recipient_set envEmpty reqBasic "all_users"
      (by decide)).2 rfl).1 rfl

/-- The loop over a user list collects one `sendToUser` result per
element, in order. -/
theorem dispatchLoop_results (env : Env) (req : ExpoNotificationRequest)
    (us : List String) :
    (dispatchLoop env req us).results =
      us.map fun u => (sendToUser env u req).result := by
  induction us with
  | nil => rfl
  | cons u us ih => simp [dispatchLoop, ih]

/-- The loop's network-call trace is the in-order concatenation of the
per-user traces. -/
theorem dispatchLoop_calls (env : Env) (req : ExpoNotificationRequest)
    (us : List String) :
    (dispatchLoop env req us).calls =
      us.flatMap fun u => (sendToUser env u req).calls := by
  induction us with
  | nil => rfl
  | cons u us ih => simp [dispatchLoop, ih]

/-- The loop's Delivery Log trace is the in-order concatenation of the
per-user traces. -/
theorem dispatchLoop_writes (env : Env) (req : ExpoNotificationRequest)
    (us : List String) :
    (dispatchLoop env req us).writes =
      us.flatMap fun u => (sendToUser env u req).writes := by
  induction us with
  | nil => rfl
  | cons u us ih => simp [dispatchLoop, ih]

/-- A non-empty ticket list with no error ticket has an ok ticket. -/
theorem any_isOk_of_no_err (ts : List Ticket) (hne : ts ≠ [])
    (h : (ts.filter Ticket.isErr).length = 0) :
    ts.any Ticket.isOk = true := by
  cases ts with
  | nil => exact absurd rfl hne
  | cons t ts' =>
    cases t with
    | ok id => simp [Ticket.isOk]
    | err m => simp [List.filter, Ticket.isErr] at h

/-- Under the spec's provider interface, a per-user send succeeds exactly
when the provider response for the user's batch contained at least one ok
ticket. -/
theorem sendToUser_success_eq (env : Env) (req : ExpoNotificationRequest)
    (hwf : wellFormedProvider env) (u : String) :
    (sendToUser env u req).result.success =
      userProviderHasOkTicket env req u := by
  unfold sendToUser userProviderHasOkTicket
  cases hq : queryUserTokens env u with
  | none => rfl
  | some tokens =>
    dsimp only
    by_cases he : tokens.isEmpty = true
    · simp [he]
    · rw [Bool.not_eq_true] at he
      simp only [he, Bool.false_eq_true, if_false]
      cases hok : (env.provider (buildMessage (tokens.map TokenRow.token) req)).ok with
      | false =>
        have hdata := (hwf _).2 hok
        simp [sendExpoNotification, hok, hdata]
      | true =>
        obtain ⟨ts, hts, hne⟩ := (hwf _).1 hok
        by_cases hl : 0 < (ts.filter Ticket.isErr).length
        · simp [sendExpoNotification, hok, hts, hl]
        · have h0 : (ts.filter Ticket.isErr).length = 0 :=
            Nat.eq_zero_of_not_pos hl
          simp [sendExpoNotification, hok, hts, hl,
            any_isOk_of_no_err ts hne h0]

/-- The provider of `envC4` satisfies the spec's provider interface. -/
theorem wellFormedProvider_envC4 : wellFormedProvider envC4 := by
  intro msg
  refine ⟨fun _ => ⟨[Ticket.ok "a", Ticket.err "boom"], rfl, by decide⟩, ?_⟩
  intro h
  exact Bool.noConfusion h

/-- C4: on the `userIds` path the handler performs the per-user
resolution once per list element, sequentially in list order; the
aggregate success count equals the number of per-user sends whose
provider response contained at least one ok ticket (with the provider
honouring the spec's response interface); and a Token Store query failure
for one recipient yields the query-failure result for that recipient
only, other recipients' processing being a function of the environment at
their own user id alone. -/
theorem userIds_sequential_fanout (env : Env) (req : ExpoNotificationRequest)
    (us : List String) (ht : req.topic = none) (hu : req.userId = none)
    (hus : req.userIds = some us) (hne : us ≠ [])
    (hwf : wellFormedProvider env) :
    ((handler env (some req)).body =
      RespBody.success
        ("Sent " ++ toString ((us.map fun u =>
            (sendToUser env u req).result).countP SendResult.success) ++
          " notifications, " ++ toString ((us.map fun u =>
            (sendToUser env u req).result).countP fun r => !r.success) ++
          " failed")
        (us.map fun u => (sendToUser env u req).result)) ∧
    ((handler env (some req)).calls =
      us.flatMap fun u => (sendToUser env u req).calls) ∧
    ((us.map fun u => (sendToUser env u req).result).countP
        SendResult.success =
      (us.filter (userProviderHasOkTicket env req)).length) ∧
    (∀ u, env.userQueryError u = true →
      (sendToUser env u req).result =
        { success := false, error := some "Failed to fetch user tokens" }) ∧
    (∀ env2 v, env2.fcmTokens = env.fcmTokens →
      env2.provider = env.provider →
      env2.userQueryError v = env.userQueryError v →
      sendToUser env2 v req = sendToUser env v req) := by
  have hlen : 0 < us.length := List.length_pos.mpr hne
  have hred : handler env (some req) =
      mk200 (dispatchLoop env req us).results (dispatchLoop env req us).calls
        (dispatchLoop env req us).writes := by
    simp [handler, strTruthy, ht, hu, hus, hlen]
  refine ⟨?_, ?_, ?_, ?_, ?_⟩
  · rw [hred, mk200, dispatchLoop_results]
  · rw [hred, mk200, dispatchLoop_calls]
  · rw [List.countP_map]
    rw [List.countP_congr fun u _ => ?_, List.countP_eq_length_filter]
    show ((sendToUser env u req).result.success = true) ↔ _
    rw [sendToUser_success_eq env req hwf u]
  · intro u hu2
    simp [sendToUser, queryUserTokens, hu2]
  · intro env2 v htok hprov herr
    have hq : queryUserTokens env2 v = queryUserTokens env v := by
      unfold queryUserTokens
      rw [htok, herr]
    have hsend : ∀ tl, sendExpoNotification env2 tl req =
        sendExpoNotification env tl req := by
      intro tl
      unfold sendExpoNotification
      rw [hprov]
    unfold sendToUser
    rw [hq]
    cases queryUserTokens env v with
    | none => rfl
    | some tokens =>
      dsimp only
      by_cases he : tokens.isEmpty = true
      · simp [he]
      · rw [Bool.not_eq_true] at he
        simp [he, hsend]

/-- Witness for C4 on a concrete world: `u1`'s query fails in isolation,
`u2`'s mixed-ticket batch counts as the single success. -/
theorem userIds_sequential_fanout_witness :
    ((handler envC4 (some reqTwoUsers)).calls =
      ["u1", "u2"].flatMap fun u => (sendToUser envC4 u reqTwoUsers).calls) ∧
    ((["u1", "u2"].map fun u =>
        (sendToUser envC4 u reqTwoUsers).result).countP SendResult.success =
      (["u1", "u2"].filter
        (userProviderHasOkTicket envC4 reqTwoUsers)).length) ∧
    ((sendToUser envC4 "u1" reqTwoUsers).result =
      { success := false, error := some "Failed to fetch user tokens" }) ∧
    sendToUser envC4 "u2" reqTwoUsers = sendToUser envC4 "u2" reqTwoUsers := by
  have h := userIds_sequential_fanout envC4 reqTwoUsers ["u1", "u2"]
    rfl rfl rfl (by decide) wellFormedProvider_envC4
  exact ⟨h.2.1, h.2.2.1, h.2.2.2.1 "u1" (by decide),
    h.2.2.2.2 envC4 "u2" rfl rfl rfl⟩

/-- Every Delivery Log operation a per-user send emits is an insert. -/
theorem sendToUser_writes_insert (env : Env) (u : String)
    (req : ExpoNotificationRequest) :
    ((sendToUser env u req).writes).all DbWrite.isInsert = true := by
  unfold sendToUser
  cases queryUserTokens env u with
  | none => rfl
  | some tokens =>
    dsimp only
    by_cases he : tokens.isEmpty = true
    · simp [he]
    · rw [Bool.not_eq_true] at he
      simp only [he, Bool.false_eq_true, if_false]
      rw [List.all_eq_true]
      intro w hw
      rw [List.mem_map] at hw
      obtain ⟨tr, _, hwEq⟩ := hw
      rw [← hwEq]
      rfl

/-- The broadcast path writes nothing to the Delivery Log. -/
theorem sendToAllUsers_writes_nil (env : Env)
    (req : ExpoNotificationRequest) :
    (sendToAllUsers env req).writes = [] := by
  unfold sendToAllUsers
  cases queryAllTokens env with
  | none => rfl
  | some tokens =>
    dsimp only
    by_cases he : tokens.isEmpty = true
    · simp [he]
    · rw [Bool.not_eq_true] at he
      simp [he]

/-- C5: a per-user send writes exactly one DeliveryRecord per token
queried for that user, each an insert for that user whose status is
`"sent"` or `"failed"` by the batch-level boolean alone; the broadcast
path writes no DeliveryRecord; and every Delivery Log operation any
handler invocation performs is an insert — nothing is mutated or
deleted. -/
theorem delivery_log_discipline (env : Env) (uid : String)
    (req : ExpoNotificationRequest) :
    (∀ tokens, queryUserTokens env uid = some tokens →
      (sendToUser env uid req).writes.length = tokens.length ∧
      ∀ w ∈ (sendToUser env uid req).writes, ∃ rec,
        w = DbWrite.insertDelivery rec ∧ rec.user_id = uid ∧
        rec.status = (if (sendToUser env uid req).result.success
          then "sent" else "failed")) ∧
    (queryUserTokens env uid = none →
      (sendToUser env uid req).writes = []) ∧
    (∀ req2, (sendToAllUsers env req2).writes = []) ∧
    (∀ req?, ((handler env req?).writes).all DbWrite.isInsert = true) := by
  have hloop : ∀ us, ((dispatchLoop env req us).writes).all
      DbWrite.isInsert = true := by
    intro us
    rw [dispatchLoop_writes, List.all_flatMap, List.all_eq_true]
    intro v _
    exact sendToUser_writes_insert env v req
  refine ⟨?_, ?_, fun req2 => sendToAllUsers_writes_nil env req2, ?_⟩
  · intro tokens hq
    unfold sendToUser
    rw [hq]
    dsimp only
    by_cases he : tokens.isEmpty = true
    · have hnil : tokens = [] := List.isEmpty_iff.mp he
      subst hnil
      simp
    · rw [Bool.not_eq_true] at he
      simp only [he, Bool.false_eq_true, if_false]
      refine ⟨List.length_map tokens _, ?_⟩
      intro w hw
      rw [List.mem_map] at hw
      obtain ⟨tr, _, hwEq⟩ := hw
      exact ⟨deliveryRowFor uid req
        (sendExpoNotification env (tokens.map TokenRow.token) req).1 tr,
        hwEq.symm, rfl, rfl⟩
  · intro hq
    unfold sendToUser
    rw [hq]
  · intro req?
    cases req? with
    | none => rfl
    | some r =>
      unfold handler
      by_cases h1 : strTruthy r.topic = true
      · simp only [h1, if_true]
        rw [mk200, sendToAllUsers_writes_nil env r]
        rfl
      · rw [Bool.not_eq_true] at h1
        simp only [h1, Bool.false_eq_true, if_false]
        by_cases h2 : strTruthy r.userId = true
        · simp only [h2, if_true]
          rw [mk200]
          exact sendToUser_writes_insert env (r.userId.getD "") r
        · rw [Bool.not_eq_true] at h2
          simp only [h2, Bool.false_eq_true, if_false]
          cases hm : r.userIds with
          | none => rfl
          | some us =>
            dsimp only
            by_cases h3 : 0 < us.length
            · simp only [h3, if_true]
              rw [mk200]
              rw [dispatchLoop_writes, List.all_flatMap, List.all_eq_true]
              intro v _
              exact sendToUser_writes_insert env v r
            · simp only [h3, if_false]
              rfl

/-- Witness for C5 on a concrete world: `u2`'s two-user send writes one
record per queried token; the broadcast writes none. -/
theorem delivery_log_discipline_witness :
    ((sendToUser envC4 "u2" reqTwoUsers).writes.length = [rowU2].length ∧
      ∀ w ∈ (sendToUser envC4 "u2" reqTwoUsers).writes, ∃ rec,
        w = DbWrite.insertDelivery rec ∧ rec.user_id = "u2" ∧
        rec.status = (if (sendToUser envC4 "u2" reqTwoUsers).result.success
          then "sent" else "failed")) ∧
    (sendToAllUsers envC4 reqBasic).writes = [] ∧
    ((handler envC4 (some reqTwoUsers)).writes).all DbWrite.isInsert = true := by
  have h := delivery_log_discipline envC4 "u2" reqTwoUsers
  exact ⟨h.1 [rowU2] rfl, h.2.2.1 reqBasic, h.2.2.2 (some reqTwoUsers)⟩

/-- C6 (listener/dispatcher composition): events with an allow-listed
type produce exactly one dispatch invocation and other events none; the
invocation body names the authenticated user under the key `user_id`, so
the dispatch function — which reads `userId` — parses all three recipient
fields as absent and rejects every listener-triggered request with the
500 validation failure, performing no network call. -/
theorem listener_invocation_rejected (env : Env) (authUser : String)
    (n : InAppNotification) :
    listenerReaction authUser n =
      (if pushNotificationTypes.contains n.type
        then some (listenerBody authUser n) else none) ∧
    (listenerBody authUser n).user_id = authUser ∧
    (toDispatchRequest (listenerBody authUser n)).userId = none ∧
    (toDispatchRequest (listenerBody authUser n)).userIds = none ∧
    (toDispatchRequest (listenerBody authUser n)).topic = none ∧
    (handler env
      (some (toDispatchRequest (listenerBody authUser n)))).status = 500 ∧
    (handler env (some (toDispatchRequest (listenerBody authUser n)))).body =
      RespBody.failure noRecipientMsg ∧
    (handler env
      (some (toDispatchRequest (listenerBody authUser n)))).calls = [] := by
  refine ⟨rfl, rfl, rfl, rfl, rfl, ?_, ?_, ?_⟩ <;>
    simp [handler, toDispatchRequest, strTruthy]

/-- Keys of colliding rows are equal. -/
theorem sameKey_iff {a b : TokenRow} : sameKey a b = true ↔ a.key = b.key := by
  simp [sameKey]

/-- Key collision is symmetric. -/
theorem sameKey_symm (a b : TokenRow) : sameKey a b = sameKey b a := by
  unfold sameKey
  rw [decide_eq_decide]
  exact eq_comm

/-- Collision with a replaced row is collision with the original. -/
theorem sameKey_replace (a row r : TokenRow) :
    sameKey a (if sameKey row r then row else r) = sameKey a r := by
  by_cases h : sameKey row r = true
  · have hk : row.key = r.key := sameKey_iff.mp h
    simp [sameKey, hk]
  · rw [Bool.not_eq_true] at h
    simp [h]

/-- Collision of a replaced row is collision of the original. -/
theorem sameKey_replace_left (row r x : TokenRow) :
    sameKey (if sameKey row r then row else r) x = sameKey r x := by
  by_cases h : sameKey row r = true
  · have hk : row.key = r.key := sameKey_iff.mp h
    simp [sameKey, hk]
  · rw [Bool.not_eq_true] at h
    simp [h]

/-- The in-place replacement of an upsert preserves key uniqueness. -/
theorem nodupKeys_map_replace (row : TokenRow) :
    ∀ s, nodupKeys s = true →
      nodupKeys (s.map fun r => if sameKey row r then row else r) = true := by
  intro s
  induction s with
  | nil => intro _; rfl
  | cons r rs ih =>
    intro h
    rw [nodupKeys, Bool.and_eq_true, Bool.not_eq_true'] at h
    obtain ⟨h1, h2⟩ := h
    rw [List.map_cons, nodupKeys, Bool.and_eq_true, Bool.not_eq_true']
    refine ⟨?_, ih h2⟩
    rw [List.any_map]
    have hpt : ∀ x, (sameKey (if sameKey row r then row else r) ∘
        fun y => if sameKey row y then row else y) x = sameKey r x := by
      intro x
      simp only [Function.comp]
      rw [sameKey_replace_left, sameKey_replace]
    rw [show (sameKey (if sameKey row r then row else r) ∘
        fun y => if sameKey row y then row else y) = sameKey r
      from funext hpt]
    exact h1

/-- Appending a row that collides with nothing preserves key
uniqueness. -/
theorem nodupKeys_append_single (row : TokenRow) :
    ∀ s, nodupKeys s = true → s.any (sameKey row) = false →
      nodupKeys (s ++ [row]) = true := by
  intro s
  induction s with
  | nil => intro _ _; rfl
  | cons r rs ih =>
    intro h hany
    rw [nodupKeys, Bool.and_eq_true, Bool.not_eq_true'] at h
    obtain ⟨h1, h2⟩ := h
    rw [List.any_cons, Bool.or_eq_false_iff] at hany
    obtain ⟨ha1, ha2⟩ := hany
    rw [List.cons_append, nodupKeys, Bool.and_eq_true, Bool.not_eq_true']
    refine ⟨?_, ih h2 ha2⟩
    rw [List.any_append, h1, List.any_cons, List.any_nil,
      ← sameKey_symm row r, ha1]
    rfl

/-- Upsert semantics preserve key uniqueness of the Token Store. -/
theorem nodupKeys_upsert (s : List TokenRow) (row : TokenRow)
    (h : nodupKeys s = true) : nodupKeys (upsertToken s row) = true := by
  unfold upsertToken
  by_cases hc : s.any (sameKey row) = true
  · simp only [hc, if_true]
    exact nodupKeys_map_replace row s h
  · rw [Bool.not_eq_true] at hc
    simp only [hc, Bool.false_eq_true, if_false]
    exact nodupKeys_append_single row s h hc

/-- Every `initialize()` call preserves key uniqueness of the Token
Store. -/
theorem initializeFn_store_nodup (env : DeviceEnv) (st : SvcState)
    (store : List TokenRow) (h : nodupKeys store = true) :
    nodupKeys (initializeFn env st store).store = true := by
  unfold initializeFn
  by_cases h0 : st.isInitialized = true
  · simp only [h0, if_true]
    exact h
  · rw [Bool.not_eq_true] at h0
    simp only [h0, Bool.false_eq_true, if_false]
    by_cases h1 : env.isDevice = true
    · simp only [h1, Bool.not_true, Bool.false_eq_true, if_false]
      by_cases h2 : (requestPermissionsFn env).1 = true
      · simp only [h2, Bool.not_true, Bool.false_eq_true, if_false]
        cases hg : getExpoPushTokenFn env with
        | mk tok? t2 =>
          cases tok? with
          | none => exact h
          | some tok =>
            dsimp only
            cases env.currentUser with
            | none => exact h
            | some u =>
              dsimp only
              unfold saveTokenToDatabase
              by_cases h3 : env.upsertError = true
              · simp only [h3, if_true]
                exact h
              · rw [Bool.not_eq_true] at h3
                simp only [h3, Bool.false_eq_true, if_false]
                exact nodupKeys_upsert store _ h
      · rw [Bool.not_eq_true] at h2
        simp only [h2, Bool.not_false, if_true]
        exact h
    · rw [Bool.not_eq_true] at h1
      simp only [h1, Bool.not_false, if_true]
      exact h

/-- A first `initialize()` call either succeeds into the initialized
state or fails leaving the fresh state and the store untouched. -/
theorem initOnce_cases (env : DeviceEnv) (store : List TokenRow) :
    ((initOnce env store).ok = true ∧
      (initOnce env store).state.isInitialized = true) ∨
    ((initOnce env store).ok = false ∧
      (initOnce env store).state =
        { isInitialized := false, expoPushToken := none } ∧
      (initOnce env store).store = store) := by
  unfold initOnce initializeFn
  by_cases h1 : env.isDevice = true
  · simp only [h1, Bool.not_true, Bool.false_eq_true, if_false]
    by_cases h2 : (requestPermissionsFn env).1 = true
    · simp only [h2, Bool.not_true, Bool.false_eq_true, if_false]
      cases hg : getExpoPushTokenFn env with
      | mk tok? t2 =>
        cases tok? with
        | none => right; refine ⟨?_, ?_, ?_⟩ <;> trivial
        | some tok =>
          dsimp only
          cases env.currentUser with
          | none => left; refine ⟨?_, ?_⟩ <;> trivial
          | some u => left; refine ⟨?_, ?_⟩ <;> trivial
    · rw [Bool.not_eq_true] at h2
      simp only [h2, Bool.not_false, if_true]
      right
      refine ⟨?_, ?_, ?_⟩ <;> trivial
  · rw [Bool.not_eq_true] at h1
    simp only [h1, Bool.not_false, if_true]
    right
    refine ⟨?_, ?_, ?_⟩ <;> trivial

/-- C7 counterexample: in a stable session whose permission prompt is
denied, the first `initialize()` fails and the second call is not a
no-op — it re-runs the permission flow, performing external calls. -/
theorem initialize_repeat_not_noop :
    (initOnce envDenied []).ok = false ∧
    (initTwice envDenied []).trace ≠ [] := by
  refine ⟨rfl, ?_⟩
  decide

/-- C7 (amended): under a stable session, calling `initialize()` twice
returns the same outcome and the same token and never duplicates a Token
Store key; after a successful first call the second call is a no-op
returning `true`, but after a failed first call the second call re-runs
the initialization rather than being a no-op. -/
theorem initialize_stable_session (env : DeviceEnv) (store : List TokenRow)
    (h : nodupKeys store = true) :
    ((initOnce env store).ok = true →
      initTwice env store =
        { ok := true, state := (initOnce env store).state,
          store := (initOnce env store).store, trace := [] }) ∧
    ((initOnce env store).ok = false →
      initTwice env store = initOnce env store) ∧
    (initTwice env store).ok = (initOnce env store).ok ∧
    (initTwice env store).state.expoPushToken =
      (initOnce env store).state.expoPushToken ∧
    nodupKeys (initTwice env store).store = true := by
  have hstore1 : nodupKeys (initOnce env store).store = true :=
    initializeFn_store_nodup env _ store h
  rcases initOnce_cases env store with ⟨hok, hinit⟩ | ⟨hok, hst, hsto⟩
  · have htw : initTwice env store =
        { ok := true, state := (initOnce env store).state,
          store := (initOnce env store).store, trace := [] } := by
      unfold initTwice initializeFn
      simp only [hinit, if_true]
    refine ⟨fun _ => htw, ?_, ?_, ?_, ?_⟩
    · intro hfalse
      rw [hok] at hfalse
      exact Bool.noConfusion hfalse
    · rw [htw, hok]
    · rw [htw]
    · rw [htw]
      exact hstore1
  · have htw : initTwice env store = initOnce env store := by
      unfold initTwice
      rw [hst, hsto]
      exact rfl
    refine ⟨?_, fun _ => htw, ?_, ?_, ?_⟩
    · intro htrue
      rw [hok] at htrue
      exact Bool.noConfusion htrue
    · rw [htw]
    · rw [htw]
    · rw [htw]
      exact hstore1

/-- Witness for C7's amended theorem: a stable granted session, starting
from an empty store. -/
theorem initialize_stable_session_witness :
    initTwice envGranted [] =
      { ok := true, state := (initOnce envGranted []).state,
        store := (initOnce envGranted []).store, trace := [] } ∧
    (initTwice envGranted []).state.expoPushToken =
      (initOnce envGranted []).state.expoPushToken ∧
    nodupKeys (initTwice envGranted []).store = true := by
  have h := initialize_stable_session envGranted [] rfl
  exact ⟨h.1 rfl, h.2.2.2.1, h.2.2.2.2⟩

/-- Witness for C9's amended theorem: instantiated on the concrete
two-shape request. -/
theorem recipient_shape_priority_witness :
    handler envEmpty
        (some { reqMulti with userId := some "u9", userIds := some ["a", "b"] })
      = handler envEmpty (some reqMulti) :=
  (recipient_shape_priority envEmpty reqMulti).2.1 rfl (some "u9") (some ["a", "b"])

end CleanBeats
